import Mathlib

/-!
Verification of knimepy's `knime.py` (workflow I/O-node discovery and
data-table marshalling/unmarshalling protocol) against its specification.

The Python source is shallowly embedded: pure helpers become Lean
functions, Python exceptions become an explicit `PyErr` error type
returned through `Except`, and the stateful `LocalWorkflow` object
becomes explicit state passing over a record of its `__slots__` fields.
-/

/-! ## Python string membership (`pat in s`)

`charsStartWith pat s` models Python `s.startswith(pat)` on character
lists; `charsContain pat s` models substring membership `pat in s`. -/

def charsStartWith : List Char → List Char → Bool
  | [], _ => true
  | _ :: _, [] => false
  | p :: ps, s :: ss => p == s && charsStartWith ps ss

def charsContain (pat : List Char) : List Char → Bool
  | [] => charsStartWith pat []
  | s :: ss => charsStartWith pat (s :: ss) || charsContain pat ss

/-- Python `pat in s` (substring membership). -/
def strContains (s pat : String) : Bool :=
  charsContain pat.toList s.toList

/-- Python `s.startswith(pat)`. -/
def strStartsWith (s pat : String) : Bool :=
  charsStartWith pat.toList s.toList

/-- Python `s.endswith(pat)`. -/
def strEndsWith (s pat : String) : Bool :=
  charsStartWith pat.toList.reverse s.toList.reverse

/-! ## Type Mapper (`knime.py` lines 163-177) -/

/-- The fixed priority table `map_numpy_to_knime_type` from the source,
in source order. -/
def map_numpy_to_knime_type : List (String × String) :=
  [ ("float", "double"),
    ("int64", "long"),
    ("long", "long"),
    ("int", "int"),
    ("bool", "boolean") ]

/-- `pandas_type_mapper(pandas_dtype)`: the source iterates over
`map_numpy_to_knime_type` and returns the first entry whose key is a
substring of `str(pandas_dtype)`, defaulting to `"string"`.  The
argument here is the already-stringified dtype descriptor `key`. -/
def pandas_type_mapper (key : String) : String :=
  match map_numpy_to_knime_type.find? (fun p => strContains key p.1) with
  | some p => p.2
  | none => "string"

/-- Claim C1: `pandas_type_mapper` is total and deterministic, returns only
one of the five engine tags, chooses by ordered substring match
(float → double; else int64/long → long; else int → int; else
bool → boolean; else string), and a descriptor containing "int64"
never maps to int. -/
theorem c1_pandas_type_mapper_priority (key : String) :
    (pandas_type_mapper key = "int" ∨ pandas_type_mapper key = "long" ∨
     pandas_type_mapper key = "double" ∨ pandas_type_mapper key = "boolean" ∨
     pandas_type_mapper key = "string") ∧
    (strContains key "float" = true → pandas_type_mapper key = "double") ∧
    (strContains key "float" = false →
      (strContains key "int64" = true ∨ strContains key "long" = true) →
      pandas_type_mapper key = "long") ∧
    (strContains key "float" = false → strContains key "int64" = false →
      strContains key "long" = false → strContains key "int" = true →
      pandas_type_mapper key = "int") ∧
    (strContains key "float" = false → strContains key "int64" = false →
      strContains key "long" = false → strContains key "int" = false →
      strContains key "bool" = true → pandas_type_mapper key = "boolean") ∧
    (strContains key "float" = false → strContains key "int64" = false →
      strContains key "long" = false → strContains key "int" = false →
      strContains key "bool" = false → pandas_type_mapper key = "string") ∧
    (strContains key "int64" = true → pandas_type_mapper key ≠ "int") := by
  cases hf : strContains key "float" <;>
    cases h64 : strContains key "int64" <;>
      cases hl : strContains key "long" <;>
        cases hi : strContains key "int" <;>
          cases hb : strContains key "bool" <;>
            simp [pandas_type_mapper, map_numpy_to_knime_type, List.find?,
              hf, h64, hl, hi, hb]

/-- Witness for C1 at the concrete descriptor "int64". -/
theorem c1_pandas_type_mapper_priority_w :
    pandas_type_mapper "int64" = "long" ∧ pandas_type_mapper "int64" ≠ "int" :=
  ⟨(c1_pandas_type_mapper_priority "int64").2.2.1 (by decide) (Or.inl (by decide)),
   (c1_pandas_type_mapper_priority "int64").2.2.2.2.2.2 (by decide)⟩

/-! ## Table Codec (`knime.py` lines 180-222)

Scalar cells of a tabular value.  `missing` models a pandas
missing/undefined value (NaN / None); the other constructors model the
native scalar kinds of the wire format.  Floating-point cells carry no
arithmetic in any claim, so numeric cells are modelled by `intV`. -/

inductive Cell where
  | missing
  | intV (i : Int)
  | boolV (b : Bool)
  | strV (s : String)
deriving DecidableEq

/-- Python `str(cell)`.  A pandas missing value is the float NaN, whose
`str` is `"nan"`; `str(True)` is `"True"`. -/
def pyStr : Cell → String
  | .missing => "nan"
  | .intV i => toString i
  | .boolV b => if b then "True" else "False"
  | .strV s => s

/-- JSON-like values of the wire payload. -/
inductive J where
  | jnull
  | jint (i : Int)
  | jbool (b : Bool)
  | jstr (s : String)
  | jarr (xs : List J)
  | jobj (fields : List (String × J))

/-- The JSON image of a cell: a missing value serializes to `null`
(source line 211, `to_json(orient="values")`), others to themselves. -/
def jsonOfCell : Cell → J
  | .missing => .jnull
  | .intV i => .jint i
  | .boolV b => .jbool b
  | .strV s => .jstr s

/-- Source lines 204-207: columns whose mapped KNIME type is `"string"`
are replaced by `df2[column_name].apply(str)` before the NaN check, so
a missing cell in such a column becomes the string `str(nan)`. -/
def coerceCell (knimeType : String) (c : Cell) : Cell :=
  if knimeType == "string" then .strV (pyStr c) else c

/-- A pandas DataFrame, abstracted: ordered `(column_name, dtype)` pairs
(the order of `df.dtypes.items()`) and row-major cell data. -/
structure DFrame where
  cols : List (String × String)
  rows : List (List Cell)

/-- The wire-level `{table-spec, table-data}` pairing. -/
structure EncodedTable where
  tableSpec : List (String × String)
  tableData : List (List J)

/-- Row emission: each cell is coerced per its column's mapped type and
serialized to JSON.  Both source branches (line 211 `to_json` and line
213 `to_dict`) are modelled cell-wise; the pandas-internal "upcasting"
quirk documented in the source docstring lives inside pandas, outside
this repository. -/
def encRow : List String → List Cell → List J
  | t :: ts, c :: cs => jsonOfCell (coerceCell t c) :: encRow ts cs
  | _, _ => []

/-- `convert_dataframe_to_knime_friendly_dict` (lines 194-217), on the
DataFrame branch: `proto_table_spec` from `pandas_type_mapper`, string
coercion of string-mapped columns, then row-major emission. -/
def convert_dataframe_to_knime_friendly_dict (df : DFrame) : EncodedTable :=
  let proto := df.cols.map (fun p => (p.1, pandas_type_mapper p.2))
  { tableSpec := proto,
    tableData := df.rows.map (fun row => encRow (proto.map Prod.snd) row) }

/-- A caller-supplied tabular value: either a DataFrame or an
already-encoded payload. -/
inductive TabInput where
  | frame (df : DFrame)
  | rawDict (e : EncodedTable)

/-- `convert_dataframe_to_knime_friendly_dict` including the
`except AttributeError` branch (lines 219-220): a non-DataFrame input is
passed along unchanged. -/
def conv_any : TabInput → EncodedTable
  | .frame df => convert_dataframe_to_knime_friendly_dict df
  | .rawDict e => e

/-- Decoding an `EncodedTable`: reconstruct the column order by
flattening `table-spec` and take `table-data` as the rows (this is the
column/row extraction performed at lines 326-333 and 641-649). -/
def decode_encoded_table (e : EncodedTable) : List String × List (List J) :=
  (e.tableSpec.map Prod.fst, e.tableData)

lemma encRow_length (ts : List String) (cs : List Cell) :
    (encRow ts cs).length = min ts.length cs.length := by
  induction ts generalizing cs with
  | nil => cases cs <;> simp [encRow]
  | cons t ts ih =>
    cases cs with
    | nil => simp [encRow]
    | cons c cs => simp [encRow, ih, Nat.succ_min_succ]

lemma encRow_get (ts : List String) (cs : List Cell) (j : Nat)
    (t : String) (c : Cell) (hts : ts[j]? = some t) (hcs : cs[j]? = some c) :
    (encRow ts cs)[j]? = some (jsonOfCell (coerceCell t c)) := by
  induction ts generalizing cs j with
  | nil => simp at hts
  | cons t0 ts ih =>
    cases cs with
    | nil => simp at hcs
    | cons c0 cs =>
      cases j with
      | zero =>
        simp at hts hcs
        simp [encRow, hts, hcs]
      | succ j =>
        simp at hts hcs
        simpa [encRow] using ih cs j hts hcs

lemma conv_types_get (df : DFrame) (j : Nat) (name dt : String)
    (hcol : df.cols[j]? = some (name, dt)) :
    ((df.cols.map (fun p => (p.1, pandas_type_mapper p.2))).map
      Prod.snd)[j]? = some (pandas_type_mapper dt) := by
  simp [List.getElem?_map, hcol]

lemma conv_cell_get (df : DFrame) (i j : Nat) (row : List Cell) (c : Cell)
    (name dt : String)
    (hrow : df.rows[i]? = some row) (hc : row[j]? = some c)
    (hcol : df.cols[j]? = some (name, dt)) :
    ∃ erow : List J,
      (convert_dataframe_to_knime_friendly_dict df).tableData[i]? = some erow ∧
      erow[j]? = some (jsonOfCell (coerceCell (pandas_type_mapper dt) c)) := by
  refine ⟨encRow ((df.cols.map (fun p => (p.1, pandas_type_mapper p.2))).map
      Prod.snd) row, ?_, ?_⟩
  · simp [convert_dataframe_to_knime_friendly_dict, List.getElem?_map, hrow]
  · exact encRow_get _ _ _ _ _ (conv_types_get df j name dt hcol) hc

lemma conv_shape (df : DFrame)
    (hrect : ∀ r ∈ df.rows, r.length = df.cols.length) :
    (convert_dataframe_to_knime_friendly_dict df).tableData.length
        = df.rows.length ∧
    (∀ r ∈ (convert_dataframe_to_knime_friendly_dict df).tableData,
      r.length = df.cols.length) := by
  constructor
  · simp [convert_dataframe_to_knime_friendly_dict]
  · intro r hr
    simp [convert_dataframe_to_knime_friendly_dict] at hr
    obtain ⟨row, hrow, hmap⟩ := hr
    subst hmap
    rw [encRow_length]
    simp [hrect row hrow]

/-- Claim C2 counterexample: a DataFrame with one `object`-dtype
(string-mapped) column and a missing cell.  The encoder stringifies the
missing cell to `"nan"` before the NaN check, so the round trip yields
the sentinel string `"nan"`, not null, refuting the claim as stated. -/
theorem c2_roundtrip_cx :
    (decode_encoded_table (convert_dataframe_to_knime_friendly_dict
        ⟨[("a", "object")], [[Cell.missing]]⟩)).2 = [[J.jstr "nan"]] ∧
    J.jstr "nan" ≠ J.jnull :=
  ⟨rfl, fun h => J.noConfusion h⟩

/-- Claim C2 (amended): `decode(encode(x))` preserves column order, row
count, and per-row width; each cell round-trips to the JSON image of its
coerced value; missing cells in columns not mapped to string round-trip
to null, but missing cells in string-mapped columns round-trip to the
sentinel string `str(nan) = "nan"`, not to null. -/
theorem c2_roundtrip_amended (df : DFrame)
    (hrect : ∀ r ∈ df.rows, r.length = df.cols.length) :
    (decode_encoded_table
        (convert_dataframe_to_knime_friendly_dict df)).1
      = df.cols.map Prod.fst ∧
    (decode_encoded_table
        (convert_dataframe_to_knime_friendly_dict df)).2.length
      = df.rows.length ∧
    (∀ r ∈ (decode_encoded_table
        (convert_dataframe_to_knime_friendly_dict df)).2,
      r.length = df.cols.length) ∧
    (∀ (i j : Nat) (row : List Cell) (c : Cell) (name dt : String),
      df.rows[i]? = some row → row[j]? = some c →
      df.cols[j]? = some (name, dt) →
      ∃ erow : List J,
        (decode_encoded_table
            (convert_dataframe_to_knime_friendly_dict df)).2[i]?
          = some erow ∧
        erow[j]? = some (jsonOfCell (coerceCell (pandas_type_mapper dt) c)) ∧
        (pandas_type_mapper dt ≠ "string" → c = Cell.missing →
          erow[j]? = some J.jnull) ∧
        (pandas_type_mapper dt = "string" → c = Cell.missing →
          erow[j]? = some (J.jstr "nan"))) := by
  obtain ⟨hlen, hwidth⟩ := conv_shape df hrect
  refine ⟨?_, hlen, hwidth, ?_⟩
  · simp [decode_encoded_table, convert_dataframe_to_knime_friendly_dict,
      List.map_map]
  · intro i j row c name dt hrow hc hcol
    obtain ⟨erow, he, hcell⟩ := conv_cell_get df i j row c name dt hrow hc hcol
    refine ⟨erow, he, hcell, ?_, ?_⟩
    · intro hne hmiss
      subst hmiss
      rw [hcell]
      simp [coerceCell, jsonOfCell, hne]
    · intro heq hmiss
      subst hmiss
      rw [hcell]
      simp [coerceCell, jsonOfCell, pyStr, heq]

def dfC2w : DFrame :=
  ⟨[("a", "int64"), ("s", "object")],
   [[Cell.intV 3, Cell.strV "x"], [Cell.missing, Cell.missing]]⟩

/-- Witness for the amended C2 at a concrete two-column DataFrame. -/
theorem c2_roundtrip_amended_w :
    (decode_encoded_table
        (convert_dataframe_to_knime_friendly_dict dfC2w)).1
      = dfC2w.cols.map Prod.fst ∧
    (decode_encoded_table
        (convert_dataframe_to_knime_friendly_dict dfC2w)).2.length
      = dfC2w.rows.length ∧
    (∀ r ∈ (decode_encoded_table
        (convert_dataframe_to_knime_friendly_dict dfC2w)).2,
      r.length = dfC2w.cols.length) ∧
    (∀ (i j : Nat) (row : List Cell) (c : Cell) (name dt : String),
      dfC2w.rows[i]? = some row → row[j]? = some c →
      dfC2w.cols[j]? = some (name, dt) →
      ∃ erow : List J,
        (decode_encoded_table
            (convert_dataframe_to_knime_friendly_dict dfC2w)).2[i]?
          = some erow ∧
        erow[j]? = some (jsonOfCell (coerceCell (pandas_type_mapper dt) c)) ∧
        (pandas_type_mapper dt ≠ "string" → c = Cell.missing →
          erow[j]? = some J.jnull) ∧
        (pandas_type_mapper dt = "string" → c = Cell.missing →
          erow[j]? = some (J.jstr "nan"))) :=
  c2_roundtrip_amended dfC2w (by decide)

/-- Claim C3 counterexample: a one-column DataFrame whose `object` dtype
maps to string and whose first cell is missing.  The encoder emits the
string `"nan"` at that position, not JSON null, refuting the claim as
stated (the claim asserts null for missing cells in string-mapped
columns as well). -/
theorem c3_missing_cell_cx :
    (convert_dataframe_to_knime_friendly_dict
        ⟨[("name", "object")], [[Cell.missing], [Cell.strV "x"]]⟩).tableData
      = [[J.jstr "nan"], [J.jstr "x"]] ∧
    J.jstr "nan" ≠ J.jnull :=
  ⟨rfl, fun h => J.noConfusion h⟩

/-- Claim C3 (amended): the encoded table-data has exactly as many rows
as the input and each row exactly as many values as the input has
columns; a missing cell in a column whose mapped type is not string is
emitted as JSON null, while a missing cell in a string-mapped column is
first coerced by `str` and emitted as the string `"nan"`. -/
theorem c3_missing_cell_amended (df : DFrame)
    (hrect : ∀ r ∈ df.rows, r.length = df.cols.length) :
    (convert_dataframe_to_knime_friendly_dict df).tableData.length
      = df.rows.length ∧
    (∀ r ∈ (convert_dataframe_to_knime_friendly_dict df).tableData,
      r.length = df.cols.length) ∧
    (∀ (i j : Nat) (row : List Cell) (name dt : String),
      df.rows[i]? = some row → row[j]? = some Cell.missing →
      df.cols[j]? = some (name, dt) →
      ∃ erow : List J,
        (convert_dataframe_to_knime_friendly_dict df).tableData[i]?
          = some erow ∧
        (pandas_type_mapper dt ≠ "string" → erow[j]? = some J.jnull) ∧
        (pandas_type_mapper dt = "string" →
          erow[j]? = some (J.jstr "nan"))) := by
  obtain ⟨hlen, hwidth⟩ := conv_shape df hrect
  refine ⟨hlen, hwidth, ?_⟩
  intro i j row name dt hrow hc hcol
  obtain ⟨erow, he, hcell⟩ :=
    conv_cell_get df i j row Cell.missing name dt hrow hc hcol
  refine ⟨erow, he, ?_, ?_⟩
  · intro hne
    rw [hcell]
    simp [coerceCell, jsonOfCell, hne]
  · intro heq
    rw [hcell]
    simp [coerceCell, jsonOfCell, pyStr, heq]

def dfC3w : DFrame := ⟨[("x", "float64")], [[Cell.missing]]⟩

/-- Witness for the amended C3 at a concrete DataFrame whose `float64`
column (mapped to double) holds a missing cell. -/
theorem c3_missing_cell_amended_w :
    (convert_dataframe_to_knime_friendly_dict dfC3w).tableData.length
      = dfC3w.rows.length ∧
    (∀ r ∈ (convert_dataframe_to_knime_friendly_dict dfC3w).tableData,
      r.length = dfC3w.cols.length) ∧
    (∀ (i j : Nat) (row : List Cell) (name dt : String),
      dfC3w.rows[i]? = some row → row[j]? = some Cell.missing →
      dfC3w.cols[j]? = some (name, dt) →
      ∃ erow : List J,
        (convert_dataframe_to_knime_friendly_dict dfC3w).tableData[i]?
          = some erow ∧
        (pandas_type_mapper dt ≠ "string" → erow[j]? = some J.jnull) ∧
        (pandas_type_mapper dt = "string" →
          erow[j]? = some (J.jstr "nan"))) :=
  c3_missing_cell_amended dfC3w (by decide)

/-- Claim C4: in every string-mapped column each non-missing value is
emitted as the `str` representation of the original native value, and
columns whose mapped type is not string are emitted with their native
values unchanged (their JSON image). -/
theorem c4_string_coercion (df : DFrame) (i j : Nat) (row : List Cell)
    (c : Cell) (name dt : String)
    (hrow : df.rows[i]? = some row) (hc : row[j]? = some c)
    (hcol : df.cols[j]? = some (name, dt)) :
    ∃ erow : List J,
      (convert_dataframe_to_knime_friendly_dict df).tableData[i]?
        = some erow ∧
      (pandas_type_mapper dt = "string" → c ≠ Cell.missing →
        erow[j]? = some (J.jstr (pyStr c))) ∧
      (pandas_type_mapper dt ≠ "string" →
        erow[j]? = some (jsonOfCell c)) := by
  obtain ⟨erow, he, hcell⟩ := conv_cell_get df i j row c name dt hrow hc hcol
  refine ⟨erow, he, ?_, ?_⟩
  · intro heq _
    rw [hcell]
    simp [coerceCell, jsonOfCell, heq]
  · intro hne
    rw [hcell]
    simp [coerceCell, hne]

def dfC4w : DFrame :=
  ⟨[("n", "int32"), ("s", "object")], [[Cell.intV 7, Cell.boolV true]]⟩

/-- Witness for C4: an int32 column is passed through natively while a
bool value in an object (string-mapped) column is emitted as "True". -/
theorem c4_string_coercion_w :
    ∃ erow : List J,
      (convert_dataframe_to_knime_friendly_dict dfC4w).tableData[0]?
        = some erow ∧
      (pandas_type_mapper "object" = "string" → Cell.boolV true ≠ Cell.missing →
        erow[1]? = some (J.jstr (pyStr (Cell.boolV true)))) ∧
      (pandas_type_mapper "object" ≠ "string" →
        erow[1]? = some (jsonOfCell (Cell.boolV true))) :=
  c4_string_coercion dfC4w 0 1 [Cell.intV 7, Cell.boolV true]
    (Cell.boolV true) "s" "object" (by decide) (by decide) (by decide)

/-! ## Python exceptions -/

/-- The Python exceptions that the embedded code can raise, each carrying
the message the source attaches to it. -/
inductive PyErr where
  | keyError (k : String)
  | typeError
  | valueError
  | nameError
  | indexError (msg : String)
  | fileNotFoundError
  | attributeError
  | childProcessError (msg : String)
deriving DecidableEq

/-! ## Node Locator (`knime.py` lines 62-160) -/

/-- A parsed XML element: tag, attributes in document order, children in
document order. -/
inductive XmlElem where
  | mk (tag : String) (attribs : List (String × String))
      (children : List XmlElem)

def XmlElem.tag : XmlElem → String
  | .mk t _ _ => t

def XmlElem.attribs : XmlElem → List (String × String)
  | .mk _ a _ => a

def XmlElem.children : XmlElem → List XmlElem
  | .mk _ _ c => c

/-- Python `element.attrib.get(k)`: first attribute with that key, or
None. -/
def attrGet (e : XmlElem) (k : String) : Option String :=
  (e.attribs.find? (fun p => p.1 == k)).map Prod.snd

/-- Python `int(s)` restricted to an optional sign and decimal digits;
failure models `ValueError`. -/
def pyInt (s : String) : Option Int :=
  let digits (cs : List Char) : Option Nat :=
    if cs.isEmpty then none
    else cs.foldlM (fun acc c =>
      if c.isDigit then some (acc * 10 + (c.toNat - 48)) else none) 0
  match s.toList with
  | '-' :: rest => (digits rest).map (fun n => -(n : Int))
  | '+' :: rest => (digits rest).map (fun n => (n : Int))
  | cs => (digits cs).map (fun n => (n : Int))

/-- `str(PurePosixPath(unique_node_dirname, "settings.xml"))`
(line 148). -/
def settingsTarget (dirname : String) : String :=
  dirname ++ "/settings.xml"

/-- The inner `for sub_tag in node_config` loop of `find_node_id`
(lines 150-154), threading the Python binding of `node_id` (`none` =
still unbound).  Returns the binding and whether `break` fired. -/
def find_node_id_subtags (target : String) :
    List XmlElem → Option (Option Int) →
    Except PyErr (Option (Option Int) × Bool)
  | [], b => .ok (b, false)
  | s :: rest, b =>
    let step : Except PyErr (Option (Option Int)) :=
      if attrGet s "key" == some "id" then
        match attrGet s "value" with
        | none => .error (.keyError "value")
        | some v =>
          match pyInt v with
          | none => .error .valueError
          | some i => .ok (some (some i))
      else .ok b
    match step with
    | .error e => .error e
    | .ok b2 =>
      if attrGet s "value" == some target then .ok (b2, true)
      else find_node_id_subtags target rest b2

/-- The outer `for node_config in entry.iterfind(...)` loop of
`find_node_id` (lines 149-158) with the Python `for...else` that rebinds
`node_id = None` when the inner loop does not break; referencing the
still-unbound `node_id` is a `NameError`. -/
def find_node_id_nodeconfigs (target : String) :
    List XmlElem → Option (Option Int) → Except PyErr (Option Int)
  | [], b =>
    match b with
    | none => .error .nameError
    | some v => .ok v
  | c :: rest, b =>
    match find_node_id_subtags target c.children b with
    | .error e => .error e
    | .ok (b1, didBreak) =>
      match (if didBreak then b1 else some none) with
      | none => .error .nameError
      | some (some i) => .ok (some i)
      | some none => find_node_id_nodeconfigs target rest (some none)

/-- `find_node_id` (lines 130-160): scan the top-level registry document
for the nodes-configuration element (key "nodes", tag ending in
"config"); absence raises `IndexError("nodes config XML tag not
found")`; then search its node entries for the settings-file path. -/
def find_node_id (registry : XmlElem) (dirname : String) :
    Except PyErr (Option Int) :=
  match registry.children.find?
      (fun e => attrGet e "key" == some "nodes"
        && strEndsWith e.tag "config") with
  | none => .error (.indexError "nodes config XML tag not found")
  | some entry =>
    find_node_id_nodeconfigs (settingsTarget dirname)
      (entry.children.filter (fun e => e.tag == entry.tag)) none

/-- A workflow definition on disk: per-node `(directory name, lines of
its settings.xml)` in filesystem glob order, plus the parsed
`workflow.knime` node-registry document. -/
structure WorkflowDef where
  nodes : List (String × List String)
  registry : XmlElem

/-- `find_service_table_node_dirnames`'s per-file scan (lines 94-102):
the first line mentioning the Container Table Input factory classifies
the node as an input (`some true`), else the first line mentioning the
Output factory classifies it as an output (`some false`); a file with
neither marker is ignored (`none`). -/
def classify_settings_lines : List String → Option Bool
  | [] => none
  | l :: rest =>
    if strContains l "ContainerTableInputNodeFactory" then some true
    else if strContains l "ContainerTableOutputNodeFactory" then some false
    else classify_settings_lines rest

/-- `find_service_table_node_dirnames` (lines 62-104): returns the input
node directory names and the output node directory names, preserving
enumeration order. -/
def find_service_table_node_dirnames (nodes : List (String × List String)) :
    List String × List String :=
  match nodes with
  | [] => ([], [])
  | (dirname, lines) :: rest =>
    let (ins, outs) := find_service_table_node_dirnames rest
    match classify_settings_lines lines with
    | some true => (dirname :: ins, outs)
    | some false => (ins, dirname :: outs)
    | none => (ins, outs)

/-- The list comprehension `[find_node_id(...) for stin in ...]`
(lines 415-422), left to right, propagating the first exception. -/
def map_find_node_id (registry : XmlElem) :
    List String → Except PyErr (List (Option Int))
  | [] => .ok []
  | d :: rest =>
    match find_node_id registry d with
    | .error e => .error e
    | .ok i =>
      match map_find_node_id registry rest with
      | .error e => .error e
      | .ok l => .ok (i :: l)

/-! ## Workflow Handle (`LocalWorkflow`, lines 370-462) -/

/-- The `__slots__` state of a `LocalWorkflow`, with `none` for the
fields `__init__` sets to Python `None` (the id fields start unassigned
and are modelled as `none` as well).  `α` is the type of caller-supplied
input table values. -/
structure LocalWorkflowState (α : Type) where
  workflowDef : WorkflowDef
  save_after_execution : Bool
  priv_data_table_inputs : Option (List (Option α))
  priv_data_table_outputs : Option (List (Option EncodedTable))
  priv_service_table_input_nodes : Option (List String)
  priv_service_table_output_nodes : Option (List String)
  priv_input_ids : Option (List (Option Int))
  priv_output_ids : Option (List (Option Int))

/-- `LocalWorkflow.__init__` (lines 385-400): all discovery-related
fields start as `None`. -/
def LocalWorkflow_init (α : Type) (wd : WorkflowDef) (save : Bool) :
    LocalWorkflowState α :=
  { workflowDef := wd
    save_after_execution := save
    priv_data_table_inputs := none
    priv_data_table_outputs := none
    priv_service_table_input_nodes := none
    priv_service_table_output_nodes := none
    priv_input_ids := none
    priv_output_ids := none }

/-- `LocalWorkflow._discover_inputoutput_nodes` (lines 412-424): scan
the workflow for service-table nodes, resolve each node id, and allocate
the input/output slot lists at fixed length with every entry `None`.
(On an exception the partially updated Python state is not observed by
any caller in the source, so the error case drops the state.) -/
def discover_inputoutput_nodes {α : Type} (st : LocalWorkflowState α) :
    Except PyErr (LocalWorkflowState α) :=
  match map_find_node_id st.workflowDef.registry
          (find_service_table_node_dirnames st.workflowDef.nodes).1,
        map_find_node_id st.workflowDef.registry
          (find_service_table_node_dirnames st.workflowDef.nodes).2 with
  | .ok inIds, .ok outIds =>
    .ok { st with
      priv_service_table_input_nodes :=
        some (find_service_table_node_dirnames st.workflowDef.nodes).1
      priv_service_table_output_nodes :=
        some (find_service_table_node_dirnames st.workflowDef.nodes).2
      priv_input_ids := some inIds
      priv_output_ids := some outIds
      priv_data_table_inputs := some (List.replicate
        (find_service_table_node_dirnames st.workflowDef.nodes).1.length none)
      priv_data_table_outputs := some (List.replicate
        (find_service_table_node_dirnames st.workflowDef.nodes).2.length none) }
  | .error e, _ => .error e
  | _, .error e => .error e

/-- The `data_table_inputs` property (lines 445-453): discover lazily
when either backing field is still `None`, then return the slot list. -/
def LocalWorkflow_data_table_inputs {α : Type} (st : LocalWorkflowState α) :
    Except PyErr (LocalWorkflowState α × List (Option α)) :=
  match st.priv_service_table_input_nodes, st.priv_data_table_inputs with
  | some _, some v => .ok (st, v)
  | _, _ =>
    match discover_inputoutput_nodes st with
    | .error e => .error e
    | .ok st2 => .ok (st2, st2.priv_data_table_inputs.getD [])

/-- The `data_table_outputs` property (lines 456-462). -/
def LocalWorkflow_data_table_outputs {α : Type} (st : LocalWorkflowState α) :
    Except PyErr (LocalWorkflowState α × List (Option EncodedTable)) :=
  match st.priv_service_table_output_nodes, st.priv_data_table_outputs with
  | some _, some v => .ok (st, v)
  | _, _ =>
    match discover_inputoutput_nodes st with
    | .error e => .error e
    | .ok st2 => .ok (st2, st2.priv_data_table_outputs.getD [])

lemma map_find_node_id_error (registry : XmlElem) (err : PyErr)
    (hall : ∀ d, find_node_id registry d = .error err) :
    ∀ l : List String, l ≠ [] →
      map_find_node_id registry l = .error err := by
  intro l hl
  cases l with
  | nil => exact absurd rfl hl
  | cons d rest => simp [map_find_node_id, hall d]

/-- Claim C5: when the node-registry document contains no
nodes-configuration element, `find_node_id` (and hence discovery, as
soon as it resolves at least one service node) fails with the
distinguished `IndexError("nodes config XML tag not found")` — the
error the specification's taxonomy names `NotFoundError` — rather than
returning a value or failing with an undistinguished error. -/
theorem c5_nodes_config_missing (registry : XmlElem) (dirname : String)
    (h : ∀ e ∈ registry.children,
      ¬(attrGet e "key" = some "nodes" ∧ strEndsWith e.tag "config" = true)) :
    find_node_id registry dirname
      = .error (.indexError "nodes config XML tag not found") ∧
    (∀ (wd : WorkflowDef) (α : Type) (save : Bool),
      wd.registry = registry →
      ((find_service_table_node_dirnames wd.nodes).1 ≠ [] ∨
       (find_service_table_node_dirnames wd.nodes).2 ≠ []) →
      discover_inputoutput_nodes (LocalWorkflow_init α wd save)
        = .error (.indexError "nodes config XML tag not found")) := by
  have hfind : ∀ d : String, find_node_id registry d
      = .error (.indexError "nodes config XML tag not found") := by
    intro d
    have hnone : registry.children.find?
        (fun e => attrGet e "key" == some "nodes"
          && strEndsWith e.tag "config") = none := by
      rw [List.find?_eq_none]
      intro e he
      have := h e he
      simp only [Bool.and_eq_true, beq_iff_eq]
      intro hcon
      exact this ⟨hcon.1, hcon.2⟩
    simp [find_node_id, hnone]
  refine ⟨hfind dirname, ?_⟩
  intro wd α save hreg hne
  have hmap := map_find_node_id_error registry
    (.indexError "nodes config XML tag not found") hfind
  rcases hne with hin | hout
  · simp [discover_inputoutput_nodes, LocalWorkflow_init, hreg, hmap _ hin]
  · cases hins : (find_service_table_node_dirnames wd.nodes).1 with
    | nil =>
      simp [discover_inputoutput_nodes, LocalWorkflow_init, hreg, hins,
        map_find_node_id, hmap _ hout]
    | cons d rest =>
      simp [discover_inputoutput_nodes, LocalWorkflow_init, hreg, hins,
        hmap _ (by simp : d :: rest ≠ ([] : List String))]

def wdC5 : WorkflowDef :=
  ⟨[("Container Input _Table_ (#1)",
     ["<entry key=\"factory\" value=\"x.ContainerTableInputNodeFactory\"/>"])],
   XmlElem.mk "config" [("key", "workflow.knime")] []⟩

/-- Witness for C5: an empty node registry makes both node-id resolution
and discovery fail with the distinguished IndexError. -/
theorem c5_nodes_config_missing_w :
    find_node_id (XmlElem.mk "config" [("key", "workflow.knime")] []) "Node"
      = .error (.indexError "nodes config XML tag not found") ∧
    discover_inputoutput_nodes (LocalWorkflow_init Unit wdC5 false)
      = .error (.indexError "nodes config XML tag not found") :=
  ⟨(c5_nodes_config_missing
      (XmlElem.mk "config" [("key", "workflow.knime")] []) "Node"
      (by decide)).1,
   (c5_nodes_config_missing wdC5.registry "Node" (by decide)).2
     wdC5 Unit false rfl (Or.inl (by decide))⟩

/-- Claim C9: on a freshly constructed handle, the first access to the
input-slot or output-slot property triggers discovery; afterwards the
input-slot list holds exactly one `None` entry per discovered input
service node (likewise for outputs), and subsequent accesses return the
same lists with the state unchanged (no re-discovery). -/
theorem c9_lazy_discovery (α : Type) (wd : WorkflowDef) (save : Bool)
    (st2 : LocalWorkflowState α)
    (h : discover_inputoutput_nodes (LocalWorkflow_init α wd save)
      = .ok st2) :
    st2.priv_service_table_input_nodes
      = some (find_service_table_node_dirnames wd.nodes).1 ∧
    st2.priv_service_table_output_nodes
      = some (find_service_table_node_dirnames wd.nodes).2 ∧
    st2.priv_data_table_inputs
      = some (List.replicate
          (find_service_table_node_dirnames wd.nodes).1.length none) ∧
    st2.priv_data_table_outputs
      = some (List.replicate
          (find_service_table_node_dirnames wd.nodes).2.length none) ∧
    LocalWorkflow_data_table_inputs (LocalWorkflow_init α wd save)
      = .ok (st2, List.replicate
          (find_service_table_node_dirnames wd.nodes).1.length none) ∧
    LocalWorkflow_data_table_outputs (LocalWorkflow_init α wd save)
      = .ok (st2, List.replicate
          (find_service_table_node_dirnames wd.nodes).2.length none) ∧
    LocalWorkflow_data_table_inputs st2
      = .ok (st2, List.replicate
          (find_service_table_node_dirnames wd.nodes).1.length none) ∧
    LocalWorkflow_data_table_outputs st2
      = .ok (st2, List.replicate
          (find_service_table_node_dirnames wd.nodes).2.length none) := by
  unfold discover_inputoutput_nodes at h
  split at h
  next inIds outIds h1 h2 =>
    simp only [LocalWorkflow_init] at h1 h2
    injection h with h3
    subst h3
    refine ⟨rfl, rfl, rfl, rfl, ?_, ?_, rfl, rfl⟩
    · simp [LocalWorkflow_data_table_inputs, LocalWorkflow_init,
        discover_inputoutput_nodes, h1, h2]
    · simp [LocalWorkflow_data_table_outputs, LocalWorkflow_init,
        discover_inputoutput_nodes, h1, h2]
  next e h1 => exact Except.noConfusion h
  next x e h1 h2 => exact Except.noConfusion h

def regC9 : XmlElem :=
  XmlElem.mk "config" [("key", "workflow.knime")]
    [ XmlElem.mk "config" [("key", "nodes")]
        [ XmlElem.mk "config" [("key", "node_7")]
            [ XmlElem.mk "entry" [("key", "id"), ("value", "7")] [],
              XmlElem.mk "entry"
                [("key", "node_settings_file"),
                 ("value", "Container Input _Table_ (#7)/settings.xml")]
                [] ] ] ]

def wdC9 : WorkflowDef :=
  ⟨[("Container Input _Table_ (#7)",
     ["<entry key=\"factory\" value=\"x.ContainerTableInputNodeFactory\"/>"])],
   regC9⟩

def stC9 : LocalWorkflowState Unit :=
  { workflowDef := wdC9
    save_after_execution := false
    priv_data_table_inputs := some [none]
    priv_data_table_outputs := some []
    priv_service_table_input_nodes :=
      some ["Container Input _Table_ (#7)"]
    priv_service_table_output_nodes := some []
    priv_input_ids := some [some 7]
    priv_output_ids := some [] }

/-- Witness for C9 on a concrete one-input workflow: discovery resolves
node id 7 and allocates a single `None` input slot. -/
theorem c9_lazy_discovery_w :
    stC9.priv_service_table_input_nodes
      = some (find_service_table_node_dirnames wdC9.nodes).1 ∧
    stC9.priv_service_table_output_nodes
      = some (find_service_table_node_dirnames wdC9.nodes).2 ∧
    stC9.priv_data_table_inputs
      = some (List.replicate
          (find_service_table_node_dirnames wdC9.nodes).1.length none) ∧
    stC9.priv_data_table_outputs
      = some (List.replicate
          (find_service_table_node_dirnames wdC9.nodes).2.length none) ∧
    LocalWorkflow_data_table_inputs (LocalWorkflow_init Unit wdC9 false)
      = .ok (stC9, List.replicate
          (find_service_table_node_dirnames wdC9.nodes).1.length none) ∧
    LocalWorkflow_data_table_outputs (LocalWorkflow_init Unit wdC9 false)
      = .ok (stC9, List.replicate
          (find_service_table_node_dirnames wdC9.nodes).2.length none) ∧
    LocalWorkflow_data_table_inputs stC9
      = .ok (stC9, List.replicate
          (find_service_table_node_dirnames wdC9.nodes).1.length none) ∧
    LocalWorkflow_data_table_outputs stC9
      = .ok (stC9, List.replicate
          (find_service_table_node_dirnames wdC9.nodes).2.length none) :=
  c9_lazy_discovery Unit wdC9 false stC9 (by rfl)

/-! ## Execution Adapter, local transport
(`run_workflow_using_multiple_service_tables`, lines 225-345) -/

/-- The warning text of line 252 (and line 611). -/
def warnNoInput (node_id : Int) : String :=
  "No input set for node_id=" ++ toString node_id

/-- The `-option=<id>,inputPathOrUrl,...` flag of line 265; the staging
path is abstracted to the `input_%d.json` filename pattern (the
temp-directory prefix is transport plumbing). -/
def optionFlagIn (node_id : Int) : String :=
  "-option=" ++ toString node_id ++ ",inputPathOrUrl,\"input_"
    ++ toString node_id ++ ".json\",String"

/-- The input-staging loop (lines 249-266) over
`zip(input_service_table_node_ids, input_datas)`: a `None` input emits a
warning and is skipped; any other input is converted and written to its
staging file and an option flag is appended.  Returns (warnings, staged
files as `(node_id, converted payload)`, option flags). -/
def stage_input_tables :
    List (Int × Option TabInput) →
    List String × List (Int × EncodedTable) × List String
  | [] => ([], [], [])
  | (node_id, none) :: rest =>
    let r := stage_input_tables rest
    (warnNoInput node_id :: r.1, r.2.1, r.2.2)
  | (node_id, some d) :: rest =>
    let r := stage_input_tables rest
    (r.1, (node_id, conv_any d) :: r.2.1, optionFlagIn node_id :: r.2.2)

/-! ## Execution Adapter, remote transport (`RemoteWorkflow.execute`,
lines 599-665) -/

/-- Warning text of line 611, keyed by the input node name. -/
def warnNoInputRemote (k : String) : String :=
  "No input set for node_id=" ++ k

/-- `job_input_data` (lines 604-607): every input slot is zipped with
its node name and run through the converter — a `None` slot stays in the
dict as `None` (the converter's AttributeError branch passes it along),
so the request payload keeps an entry for it with a null value. -/
def remote_job_input_data (names : List String)
    (datas : List (Option TabInput)) : List (String × Option EncodedTable) :=
  (names.zip datas).map (fun p => (p.1, p.2.map conv_any))

/-- The warning loop over `job_input_data.items()` (lines 608-611). -/
def remote_input_warnings :
    List (String × Option EncodedTable) → List String
  | [] => []
  | (k, none) :: rest => warnNoInputRemote k :: remote_input_warnings rest
  | (_, some _) :: rest => remote_input_warnings rest

/-! ## Output decoding -/

/-- Python `obj[k]` on a JSON value: `KeyError` on a dict without the
key, `TypeError` when subscripting a non-dict. -/
def jGetKey (j : J) (k : String) : Except PyErr J :=
  match j with
  | .jobj fields =>
    match fields.find? (fun p => p.1 == k) with
    | some p => .ok p.2
    | none => .error (.keyError k)
  | _ => .error .typeError

/-- `df_columns = list(k for d in output['table-spec'] for k, v in
d.items())` (lines 326-329 and 641-644): flatten the keys of the
table-spec's single-key dicts in order. -/
def spec_columns (spec : J) : Except PyErr (List String) :=
  match spec with
  | .jarr ds =>
    match ds.mapM (fun d =>
        match d with
        | .jobj fields => Except.ok (fields.map Prod.fst)
        | _ => Except.error PyErr.attributeError) with
    | .ok keyLists => .ok keyLists.flatten
    | .error e => .error e
  | _ => .error .typeError

/-- The result of `pandas.DataFrame(output['table-data'],
columns=df_columns)`.  The DataFrame constructor's own shape handling is
pandas-internal and is not part of this repository, so it is modelled as
the pairing of the column list with the raw table-data. -/
structure PandasDF where
  columns : List String
  data : J

/-- Decoding one output payload (lines 326-333 / 641-650): fetch
`table-spec`, flatten its columns, fetch `table-data`, build the
DataFrame. -/
def decode_single_output (out : J) : Except PyErr PandasDF :=
  match jGetKey out "table-spec" with
  | .error e => .error e
  | .ok spec =>
    match spec_columns spec with
    | .error e => .error e
    | .ok cols =>
      match jGetKey out "table-data" with
      | .error e => .error e
      | .ok data => .ok { columns := cols, data := data }

/-- The local decode loop (lines 323-338): outputs are converted one by
one; any exception other than ImportError is re-raised (line 338), so
the loop is fail-fast. -/
def local_decode_outputs : List J → Except PyErr (List PandasDF)
  | [] => .ok []
  | out :: rest =>
    match decode_single_output out with
    | .error e => .error e
    | .ok df =>
      match local_decode_outputs rest with
      | .error e => .error e
      | .ok dfs => .ok (df :: dfs)

/-- The remote decode loop (lines 638-659): a `KeyError` anywhere in the
loop is caught (lines 653-656, intended for a workflow with no output
nodes) and the outputs accumulated so far are kept; other exceptions are
re-raised. -/
def remote_decode_loop : List J → List PandasDF → Except PyErr (List PandasDF)
  | [], acc => .ok acc.reverse
  | out :: rest, acc =>
    match decode_single_output out with
    | .ok df => remote_decode_loop rest (df :: acc)
    | .error (.keyError _) => .ok acc.reverse
    | .error e => .error e

/-- The remote output decode (lines 636-659, pandas branch): fetch
`outputValues` (a missing key is caught as the no-outputs case) and run
the decode loop over its values. -/
def remote_decode_outputs (rest_service_output : J) :
    Except PyErr (List PandasDF) :=
  match jGetKey rest_service_output "outputValues" with
  | .error (.keyError _) => .ok []
  | .error e => .error e
  | .ok (.jobj outs) => remote_decode_loop (outs.map Prod.snd) []
  | .ok _ => .error .attributeError

/-! ## Local run: output collection and exit-code handling
(lines 297-345) -/

/-- `KEYPHRASE_LOCKED` (line 59). -/
def KEYPHRASE_LOCKED : String :=
  "Workflow is locked by another KNIME instance"

/-- `result.stderr and KEYPHRASE_LOCKED in result.stderr` (line 312):
stderr is `None` when passed through live, and empty output is falsy. -/
def stderr_has_lock_keyphrase (stderr : Option String) : Bool :=
  match stderr with
  | some s => (s != "") && strContains s KEYPHRASE_LOCKED
  | none => false

/-- The output-reading loop (lines 305-310): each expected output file
is opened in order; a missing file raises `FileNotFoundError`. -/
def read_expected_outputs : List (Option J) → Except PyErr (List J)
  | [] => .ok []
  | none :: _ => .error .fileNotFoundError
  | some j :: rest =>
    match read_expected_outputs rest with
    | .error e => .error e
    | .ok l => .ok (j :: l)

/-- Lines 305-321: on `FileNotFoundError`, a locked-workflow keyphrase
in stderr raises `ChildProcessError(KEYPHRASE_LOCKED)`, otherwise
`ChildProcessError("Output from KNIME not found")`. -/
def collect_knime_outputs (stderr : Option String)
    (files : List (Option J)) : Except PyErr (List J) :=
  match read_expected_outputs files with
  | .ok outs => .ok outs
  | .error _ =>
    if stderr_has_lock_keyphrase stderr then
      .error (.childProcessError KEYPHRASE_LOCKED)
    else .error (.childProcessError "Output from KNIME not found")

/-- A returned output: raw wire dict or converted DataFrame. -/
inductive KnimeOutput where
  | raw (j : J)
  | df (d : PandasDF)

/-- The tail of `run_workflow_using_multiple_service_tables`
(lines 305-345): collect the expected outputs, optionally convert to
DataFrames, and log a non-fatal warning when the exit code was
non-zero.  Returns the outputs together with the warnings logged. -/
def run_workflow_tail (returncode : Int) (stderr : Option String)
    (asPandas : Bool) (files : List (Option J)) :
    Except PyErr (List KnimeOutput × List String) :=
  match collect_knime_outputs stderr files with
  | .error e => .error e
  | .ok outs =>
    match (if asPandas then
        (match local_decode_outputs outs with
         | .error e => .error e
         | .ok dfs => .ok (dfs.map KnimeOutput.df))
      else .ok (outs.map KnimeOutput.raw) :
        Except PyErr (List KnimeOutput)) with
    | .error e => .error e
    | .ok outs2 =>
      .ok (outs2,
        if returncode != 0 then
          ["Return code from KNIME execution was non-zero"]
        else [])

/-! ## Workflow factory (`Workflow.__new__`, lines 348-367) -/

inductive HandleKind where
  | remoteWorkflow
  | localWorkflow
deriving DecidableEq

/-- `Workflow.__new__` (lines 351-367): dispatch to `RemoteWorkflow`
when the workflow path, or a supplied workspace path, starts with an
http or https scheme; otherwise to `LocalWorkflow`. -/
def Workflow_new (workflow_path : String) (workspace_path : Option String) :
    HandleKind :=
  if strStartsWith workflow_path "https://"
      || strStartsWith workflow_path "http://"
      || (match workspace_path with
          | some w => strStartsWith w "https://" || strStartsWith w "http://"
          | none => false) then
    .remoteWorkflow
  else
    .localWorkflow

lemma zip_mem_of_get {α β : Type} (as : List α) (bs : List β) (i : Nat)
    (a : α) (b : β) (ha : as[i]? = some a) (hb : bs[i]? = some b) :
    (a, b) ∈ as.zip bs := by
  induction as generalizing bs i with
  | nil => simp at ha
  | cons a0 as ih =>
    cases bs with
    | nil => simp at hb
    | cons b0 bs =>
      cases i with
      | zero =>
        simp at ha hb
        simp [ha, hb]
      | succ i =>
        simp at ha hb
        exact List.mem_cons_of_mem _ (ih bs i ha hb)

lemma remote_warning_of_none_mem (k : String)
    (job : List (String × Option EncodedTable))
    (hmem : (k, (none : Option EncodedTable)) ∈ job) :
    warnNoInputRemote k ∈ remote_input_warnings job := by
  induction job with
  | nil => simp at hmem
  | cons p rest ih =>
    rcases List.mem_cons.1 hmem with hp | hrest
    · subst hp
      simp [remote_input_warnings]
    · obtain ⟨k0, v0⟩ := p
      cases v0 <;> simp [remote_input_warnings, ih hrest]

/-- Claim C6 counterexample: a remote execution with a single unset
(`None`) input slot still includes an entry for that parameter in the
request payload (with a null value), contradicting the claim that no
entry for it is included. -/
theorem c6_none_input_cx :
    ("input-1", (none : Option EncodedTable))
      ∈ remote_job_input_data ["input-1"] [none] := by
  simp [remote_job_input_data]

/-- Claim C6 (amended): locally, a `None` input produces a warning
naming its node id and is skipped entirely (no staging artifact, no
option flag) while the remaining inputs are staged in order; remotely, a
`None` input likewise produces a warning naming its parameter key and
execution proceeds, but the parameter is still included in the request
payload with a null value. -/
theorem c6_none_input_amended :
    (∀ pairs : List (Int × Option TabInput),
      stage_input_tables pairs
        = ((pairs.filter (fun p => p.2.isNone)).map (fun p => warnNoInput p.1),
           pairs.filterMap (fun p => p.2.map (fun d => (p.1, conv_any d))),
           (pairs.filter (fun p => p.2.isSome)).map
             (fun p => optionFlagIn p.1))) ∧
    (∀ job : List (String × Option EncodedTable),
      remote_input_warnings job
        = (job.filter (fun p => p.2.isNone)).map
            (fun p => warnNoInputRemote p.1)) ∧
    (∀ (names : List String) (datas : List (Option TabInput))
        (i : Nat) (k : String),
      names[i]? = some k → datas[i]? = some none →
      (k, (none : Option EncodedTable))
          ∈ remote_job_input_data names datas ∧
      warnNoInputRemote k
          ∈ remote_input_warnings (remote_job_input_data names datas)) := by
  refine ⟨?_, ?_, ?_⟩
  · intro pairs
    induction pairs with
    | nil => simp [stage_input_tables]
    | cons p rest ih =>
      obtain ⟨nid, d⟩ := p
      cases d <;> simp [stage_input_tables, ih]
  · intro job
    induction job with
    | nil => simp [remote_input_warnings]
    | cons p rest ih =>
      obtain ⟨k, v⟩ := p
      cases v <;> simp [remote_input_warnings, ih]
  · intro names datas i k hk hd
    have hzip : (k, (none : Option TabInput)) ∈ names.zip datas :=
      zip_mem_of_get names datas i k none hk hd
    have hmem : (k, (none : Option EncodedTable))
        ∈ remote_job_input_data names datas := by
      simp only [remote_job_input_data]
      exact List.mem_map.2 ⟨(k, none), hzip, rfl⟩
    exact ⟨hmem, remote_warning_of_none_mem k _ hmem⟩

/-- Witness for the amended C6: one unset remote input slot. -/
theorem c6_none_input_amended_w :
    ("in-1", (none : Option EncodedTable))
      ∈ remote_job_input_data ["in-1"] [none] ∧
    warnNoInputRemote "in-1"
      ∈ remote_input_warnings (remote_job_input_data ["in-1"] [none]) :=
  c6_none_input_amended.2.2 ["in-1"] [none] 0 "in-1" rfl rfl

lemma read_expected_outputs_all (files : List (Option J))
    (h : ∀ f ∈ files, f ≠ none) :
    read_expected_outputs files = .ok (files.filterMap id) := by
  induction files with
  | nil => simp [read_expected_outputs]
  | cons f rest ih =>
    cases f with
    | none => exact absurd rfl (h none (List.mem_cons_self _ _))
    | some j =>
      have := ih (fun g hg => h g (List.mem_cons_of_mem _ hg))
      simp [read_expected_outputs, this]

lemma read_expected_outputs_missing (files : List (Option J))
    (h : none ∈ files) :
    read_expected_outputs files = .error .fileNotFoundError := by
  induction files with
  | nil => simp at h
  | cons f rest ih =>
    cases f with
    | none => simp [read_expected_outputs]
    | some j =>
      rcases List.mem_cons.1 h with hf | hrest
      · exact absurd hf.symm (by simp)
      · simp [read_expected_outputs, ih hrest]

/-- Claim C7: a local execution with a non-zero exit code but all
expected output artifacts present returns the decoded outputs with only
a warning logged; a missing expected output artifact raises
`ChildProcessError("Output from KNIME not found")` (the specification's
`ExecutionOutputMissing`), or `ChildProcessError` carrying the locked
keyphrase (the specification's `ResourceLockedError`) when stderr
reports the workflow locked; the two errors are distinct values. -/
theorem c7_local_outputs :
    (∀ (rc : Int) (stderr : Option String) (files : List (Option J))
        (dfs : List PandasDF),
      (∀ f ∈ files, f ≠ none) →
      local_decode_outputs (files.filterMap id) = .ok dfs →
      rc ≠ 0 →
      run_workflow_tail rc stderr true files
        = .ok (dfs.map KnimeOutput.df,
               ["Return code from KNIME execution was non-zero"])) ∧
    (∀ (rc : Int) (stderr : Option String) (asPandas : Bool)
        (files : List (Option J)),
      none ∈ files → stderr_has_lock_keyphrase stderr = false →
      run_workflow_tail rc stderr asPandas files
        = .error (.childProcessError "Output from KNIME not found")) ∧
    (∀ (rc : Int) (stderr : Option String) (asPandas : Bool)
        (files : List (Option J)),
      none ∈ files → stderr_has_lock_keyphrase stderr = true →
      run_workflow_tail rc stderr asPandas files
        = .error (.childProcessError KEYPHRASE_LOCKED)) ∧
    PyErr.childProcessError "Output from KNIME not found"
      ≠ PyErr.childProcessError KEYPHRASE_LOCKED := by
  refine ⟨?_, ?_, ?_, by decide⟩
  · intro rc stderr files dfs hall hdec hrc
    have hb : (rc != 0) = true := bne_iff_ne.2 hrc
    simp [run_workflow_tail, collect_knime_outputs,
      read_expected_outputs_all files hall, hdec, hb]
  · intro rc stderr asPandas files hmiss hlock
    simp [run_workflow_tail, collect_knime_outputs,
      read_expected_outputs_missing files hmiss, hlock]
  · intro rc stderr asPandas files hmiss hlock
    simp [run_workflow_tail, collect_knime_outputs,
      read_expected_outputs_missing files hmiss, hlock]

def outC7 : J :=
  J.jobj [("table-spec", J.jarr [J.jobj [("a", J.jstr "int")]]),
          ("table-data", J.jarr [])]

/-- Witness for C7: one present output with exit code 5, a missing
output without the lock keyphrase, and a missing output with it. -/
theorem c7_local_outputs_w :
    run_workflow_tail 5 (some "") true [some outC7]
      = .ok ([KnimeOutput.df ⟨["a"], J.jarr []⟩],
             ["Return code from KNIME execution was non-zero"]) ∧
    run_workflow_tail 0 none false [none]
      = .error (.childProcessError "Output from KNIME not found") ∧
    run_workflow_tail 0 (some KEYPHRASE_LOCKED) false [none]
      = .error (.childProcessError KEYPHRASE_LOCKED) :=
  ⟨c7_local_outputs.1 5 (some "") [some outC7] [⟨["a"], J.jarr []⟩]
     (by simp) rfl (by decide),
   c7_local_outputs.2.1 0 none false [none] (by simp) rfl,
   c7_local_outputs.2.2.1 0 (some KEYPHRASE_LOCKED) false [none]
     (by simp) rfl⟩

/-- Claim C8 counterexample: a remote response whose single output lacks
the `table-spec` key decodes to a silent success with the offending
output dropped, not to a failure, refuting the claim that such a payload
fails with `FormatError`. -/
theorem c8_decode_missing_key_cx :
    remote_decode_outputs (J.jobj [("outputValues",
      J.jobj [("out-1", J.jobj [("table-data",
        J.jarr [J.jarr [J.jint 1]])])])]) = .ok [] := rfl

lemma local_decode_outputs_append_error (good : List J)
    (dfs : List PandasDF) (bad : J) (rest : List J) (err : PyErr)
    (hgood : local_decode_outputs good = .ok dfs)
    (hbad : decode_single_output bad = .error err) :
    local_decode_outputs (good ++ bad :: rest) = .error err := by
  induction good generalizing dfs with
  | nil => simp [local_decode_outputs, hbad]
  | cons g gs ih =>
    simp only [local_decode_outputs] at hgood
    cases hg : decode_single_output g with
    | error e => simp [hg] at hgood
    | ok df =>
      cases hgs : local_decode_outputs gs with
      | error e => simp [hg, hgs] at hgood
      | ok ds =>
        simp [List.cons_append, local_decode_outputs, hg,
          ih ds hgs]

lemma remote_decode_loop_stops (good : List J) (dfs : List PandasDF)
    (bad : J) (rest : List J) (k : String)
    (hgood : local_decode_outputs good = .ok dfs)
    (hbad : decode_single_output bad = .error (.keyError k)) :
    ∀ acc : List PandasDF,
      remote_decode_loop (good ++ bad :: rest) acc
        = .ok (acc.reverse ++ dfs) := by
  induction good generalizing dfs with
  | nil =>
    intro acc
    simp only [local_decode_outputs] at hgood
    injection hgood with h
    subst h
    simp [remote_decode_loop, hbad]
  | cons g gs ih =>
    intro acc
    simp only [local_decode_outputs] at hgood
    cases hg : decode_single_output g with
    | error e => simp [hg] at hgood
    | ok df =>
      cases hgs : local_decode_outputs gs with
      | error e => simp [hg, hgs] at hgood
      | ok ds =>
        simp only [hg, hgs] at hgood
        injection hgood with h
        subst h
        simp [List.cons_append, remote_decode_loop, hg, ih ds hgs]

/-- Claim C8 (amended): in the local decode path a missing `table-spec`
or `table-data` key raises the underlying `KeyError`, which is logged
and re-raised (fatal); in the remote decode path the same `KeyError` is
caught, and decoding silently returns only the outputs decoded before
the offending one (it and all later outputs are dropped).  Row-length
mismatches are not checked by this library in either path; they are
delegated to the external DataFrame constructor. -/
theorem c8_decode_missing_key_amended (good : List J) (dfs : List PandasDF)
    (bad : J) (rest : List J) (k : String)
    (hgood : local_decode_outputs good = .ok dfs)
    (hbad : decode_single_output bad = .error (.keyError k)) :
    local_decode_outputs (good ++ bad :: rest) = .error (.keyError k) ∧
    remote_decode_loop (good ++ bad :: rest) [] = .ok dfs := by
  refine ⟨local_decode_outputs_append_error good dfs bad rest _ hgood hbad, ?_⟩
  simpa using remote_decode_loop_stops good dfs bad rest k hgood hbad []

def goodOutC8 : J :=
  J.jobj [("table-spec", J.jarr [J.jobj [("a", J.jstr "int")]]),
          ("table-data", J.jarr [J.jarr [J.jint 5]])]

def badOutC8 : J := J.jobj [("table-data", J.jarr [])]

/-- Witness for the amended C8: a well-formed output followed by one
missing its table-spec key. -/
theorem c8_decode_missing_key_amended_w :
    local_decode_outputs [goodOutC8, badOutC8]
      = .error (.keyError "table-spec") ∧
    remote_decode_loop [goodOutC8, badOutC8] []
      = .ok [⟨["a"], J.jarr [J.jarr [J.jint 5]]⟩] :=
  c8_decode_missing_key_amended [goodOutC8]
    [⟨["a"], J.jarr [J.jarr [J.jint 5]]⟩] badOutC8 [] "table-spec" rfl rfl

/-- Claim C10: the factory returns a RemoteWorkflow handle exactly when
the workflow path starts with an http or https scheme, or a workspace
path is supplied that does; in every other case it returns a
LocalWorkflow handle. -/
theorem c10_workflow_factory (wp : String) (wsp : Option String) :
    (Workflow_new wp wsp = HandleKind.remoteWorkflow ↔
      (strStartsWith wp "http://" = true ∨
       strStartsWith wp "https://" = true ∨
       ∃ w, wsp = some w ∧
         (strStartsWith w "http://" = true ∨
          strStartsWith w "https://" = true))) ∧
    (Workflow_new wp wsp = HandleKind.localWorkflow ↔
      ¬(strStartsWith wp "http://" = true ∨
        strStartsWith wp "https://" = true ∨
        ∃ w, wsp = some w ∧
          (strStartsWith w "http://" = true ∨
           strStartsWith w "https://" = true))) := by
  cases wsp with
  | none =>
    cases h1 : strStartsWith wp "https://" <;>
      cases h2 : strStartsWith wp "http://" <;>
        simp [Workflow_new, h1, h2]
  | some w =>
    cases h1 : strStartsWith wp "https://" <;>
      cases h2 : strStartsWith wp "http://" <;>
        cases h3 : strStartsWith w "https://" <;>
          cases h4 : strStartsWith w "http://" <;>
            simp [Workflow_new, h1, h2, h3, h4]
